import Mathlib

/-!
Shallow embedding of the GitHub-Triage-Agent backend (Python) in Lean 4.

The embedding covers:
- `backend/agents/nodes.py` — the classify / retrieve / generate pipeline stages;
- `backend/agents/langgraph_agent.py` — routing and the pipeline run wrapper;
- `backend/api/webhook.py` — signature verification and the ChatOps command handlers;
- `backend/api/websocket.py` — the broadcast hub (ConnectionManager);
- `backend/main.py` — the webhook HTTP endpoint control flow.

External collaborator calls (the LLM classifier and responder, the vector-store
search, the GitHub REST client, HMAC-SHA256) are modelled as explicit parameters
of type Except/Option/Bool: an `Except.error e` value stands for the Python call
raising an exception with message `e`.  Python dict-backed state is modelled as a
record; Python `None` values are modelled with `Option`.
-/

namespace Spec2Proof

/-- Substring containment, modelling the Python expression `pat in s` on strings. -/
def strContainsSub (s pat : String) : Bool :=
  (List.range (s.data.length + 1)).any
    (fun i => decide ((s.data.drop i).take pat.data.length = pat.data))

/-- Python `str.lower()`, character-wise over the string contents. -/
def pyLower (s : String) : String := ⟨s.data.map Char.toLower⟩

/-- Python `str.upper()`, character-wise over the string contents. -/
def pyUpper (s : String) : String := ⟨s.data.map Char.toUpper⟩

/-- Python `str.strip()`: drop leading and trailing whitespace. -/
def pyStrip (s : String) : String :=
  ⟨((s.data.dropWhile Char.isWhitespace).reverse.dropWhile Char.isWhitespace).reverse⟩

/-- State dictionary of the LangGraph agent (`AgentState` TypedDict in
`langgraph_agent.py`).  `classification` is `Option String` because the initial
state built in `webhook.py` sets the key to Python `None`. -/
structure AgentState where
  issue_id : String
  issue_number : Nat
  issue_title : String
  issue_body : String
  repository_full_name : String
  classification : Option String
  retrieved_context : List String
  draft_response : String
  approval_status : String
  processing_stage : String
  timestamp : String
deriving Repr, DecidableEq

/-- `classify_issue` from `agents/nodes.py`.  `hasOpenai` models the module flag
`HAS_OPENAI`; `llm` models the awaited LLM call: `Except.error` covers both the
call raising and the `response is None / no content` branch (which raises a
`ValueError` caught by the same `except`), `Except.ok content` is the response
content string. -/
def classify_issue (hasOpenai : Bool) (llm : Except String String)
    (state : AgentState) : AgentState :=
  if hasOpenai = false then
    let title_lower := pyLower state.issue_title
    let classification :=
      if strContainsSub title_lower "bug" || strContainsSub title_lower "error" then "BUG"
      else if strContainsSub title_lower "feature" || strContainsSub title_lower "add" then
        "FEATURE"
      else "QUESTION"
    { state with classification := some classification }
  else
    match llm with
    | Except.ok content =>
      let classification := pyUpper (pyStrip content)
      let classification :=
        if classification = "BUG" ∨ classification = "FEATURE" ∨ classification = "QUESTION"
        then classification
        else "QUESTION"
      { state with classification := some classification }
    | Except.error _ => { state with classification := some "QUESTION" }

/-- `search_relevant_context` from `services/rag_service.py`.  `hasChroma` and
`hasOpenai` model the module flags, `dbExists` the `os.path.exists` check on the
persist directory, and `search` the similarity search: `Except.error` stands for
any exception inside the `try` block, `Except.ok docs` for the returned
documents as (metadata source, page content) pairs, the source already carrying
the Python-side default "unknown". -/
def search_relevant_context (hasChroma hasOpenai dbExists : Bool)
    (search : Except String (List (String × String))) : List String :=
  if hasChroma = false || hasOpenai = false then
    ["Mock context: This is sample documentation for testing purposes.",
     "Mock context: Configure ChromaDB and OpenAI API for real retrieval."]
  else if dbExists = false then []
  else
    match search with
    | Except.error _ => []
    | Except.ok results =>
      results.map (fun doc =>
        if doc.1 = "unknown" then doc.2 else "[From: " ++ doc.1 ++ "]\n" ++ doc.2)

/-- `retrieve_context` from `agents/nodes.py`.  `searchOutcome` models the body
of the `try` block (import plus the awaited `search_relevant_context` call): on
`Except.ok chunks` the state field is set to the chunks, on any exception the
`except` branch sets it to the empty list. -/
def retrieve_context (searchOutcome : Except String (List String))
    (state : AgentState) : AgentState :=
  match searchOutcome with
  | Except.ok context_chunks => { state with retrieved_context := context_chunks }
  | Except.error _ => { state with retrieved_context := [] }

/-- Mock draft text produced by `generate_solution` when `HAS_OPENAI` is false.
A Python f-string renders a `None` classification as the text "None". -/
def mock_draft (state : AgentState) : String :=
  "## Analysis\nThis appears to be a " ++ state.classification.getD "None" ++
  " issue.\n\n## Proposed Solution\nThank you for reporting this issue. Our team will investigate and provide more details soon.\n\n**Issue Summary:** "
  ++ state.issue_title ++
  "\n\nThis is a mock response for testing purposes. Configure OPENAI_API_KEY for real responses.\n"

/-- `generate_solution` from `agents/nodes.py`.  `llm` models the awaited LLM
call (prompt construction only feeds that external call and is folded into it);
`Except.error` covers the call raising and the no-response `ValueError` branch. -/
def generate_solution (hasOpenai : Bool) (llm : Except String String)
    (state : AgentState) : AgentState :=
  if hasOpenai = false then { state with draft_response := mock_draft state }
  else
    match llm with
    | Except.ok content => { state with draft_response := content }
    | Except.error e =>
      { state with draft_response :=
          "## Error Generating Response\n\nWe encountered an issue while processing your request: "
          ++ e ++ "\n\nPlease try again or contact support if the issue persists." }

/-- `route_after_classification` from `agents/langgraph_agent.py`.  The file
defines it twice (lines 34-48 and 167-181); the later definition shadows the
earlier one and both compute the same function: route to "retrieve_context"
exactly when the classification is BUG or QUESTION, otherwise (FEATURE, any
other label, or an unset classification) to "generate_solution". -/
def route_after_classification (state : AgentState) : String :=
  if state.classification = some "BUG" ∨ state.classification = some "QUESTION" then
    "retrieve_context"
  else if state.classification = some "FEATURE" then "generate_solution"
  else "generate_solution"

/-- `should_retrieve_context` from `agents/langgraph_agent.py`. -/
def should_retrieve_context (state : AgentState) : Bool :=
  decide (state.classification = some "BUG" ∨ state.classification = some "QUESTION")

/-- `classify_node` from `agents/langgraph_agent.py`: the wrapper sets the
`processing_stage` field (and broadcasts) only when the module-level manager is
set (`hasManager`), then runs `classify_issue`. -/
def classify_node (hasManager hasOpenai : Bool) (llm : Except String String)
    (state : AgentState) : AgentState :=
  let state := if hasManager then { state with processing_stage := "classifying" } else state
  classify_issue hasOpenai llm state

/-- `retrieve_node` from `agents/langgraph_agent.py`. -/
def retrieve_node (hasManager : Bool) (searchOutcome : Except String (List String))
    (state : AgentState) : AgentState :=
  let state :=
    if hasManager then { state with processing_stage := "retrieving_context" } else state
  retrieve_context searchOutcome state

/-- `generate_node` from `agents/langgraph_agent.py`: runs `generate_solution`
and then unconditionally sets the terminal fields `processing_stage =
"awaiting_approval"`, `approval_status = "pending"` and refreshes the timestamp
to the current time `now`. -/
def generate_node (hasManager hasOpenai : Bool) (llm : Except String String)
    (now : String) (state : AgentState) : AgentState :=
  let state :=
    if hasManager then { state with processing_stage := "generating_response" } else state
  let state := generate_solution hasOpenai llm state
  { state with
      processing_stage := "awaiting_approval"
      approval_status := "pending"
      timestamp := now }

/-- One pass of the compiled graph, following the documented structure
(`classify`, then `retrieve_context` when `route_after_classification` says so,
then `generate_solution`): the successful-execution semantics of `app.ainvoke`. -/
def run_graph (hasManager hasOpenai : Bool) (classifyLlm generateLlm : Except String String)
    (searchOutcome : Except String (List String)) (now : String)
    (state : AgentState) : AgentState :=
  let s1 := classify_node hasManager hasOpenai classifyLlm state
  let s2 :=
    if route_after_classification s1 = "retrieve_context" then
      retrieve_node hasManager searchOutcome s1
    else s1
  generate_node hasManager hasOpenai generateLlm now s2

/-- `process_issue_with_agent` from `agents/langgraph_agent.py`: the graph
invocation is wrapped in try/except; `ainvoke` models `app.ainvoke`, which
either returns a final state or raises.  On an exception `e` the handler copies
the initial state and overwrites `processing_stage`, `approval_status` and
`draft_response` with the error configuration. -/
def process_issue_with_agent (ainvoke : AgentState → Except String AgentState)
    (initial_state : AgentState) : AgentState :=
  match ainvoke initial_state with
  | Except.ok final_state => final_state
  | Except.error e =>
    { initial_state with
        processing_stage := "error"
        approval_status := "rejected"
        draft_response := "Error processing issue: " ++ e }

/-- `verify_github_signature` from `api/webhook.py`.  `mac` models the library
call `hmac.new(secret.encode(), payload, hashlib.sha256).hexdigest()` as a
function of the secret and the payload bytes; a missing header (Python `None`)
is modelled by the empty string, both being falsy for the `if not signature`
guard.  `hmac.compare_digest` is a (constant-time) string equality. -/
def verify_github_signature (mac : String → List Nat → String)
    (payload : List Nat) (signature : String) (secret : String) : Bool :=
  if signature = "" then false
  else
    let expected_signature := "sha256=" ++ mac secret payload
    decide (expected_signature = signature)

/-- A mutation of the externally tracked artifact attempted through the
TrackerClient (`update_comment` or `delete_comment` in
`services/github_service.py`). -/
inductive TrackerMutation where
  | update (comment_id : Nat) (text : String)
  | delete (comment_id : Nat)
deriving Repr, DecidableEq

/-- Outcomes of the GitHub REST calls made by the command handlers in
`api/webhook.py`: `get_comment` returns the comment body or Python `None`
(`services/github_service.py` catches internally and returns `None`), and
`update_comment` / `delete_comment` return success booleans. -/
structure CommentOracles where
  get_comment : Option String
  update_ok : Bool
  delete_ok : Bool
deriving Repr, DecidableEq

/-- A parsed ChatOps command as produced by `parse_command` (module
`api/chatops.py`, whose object carries a `command` name and an optional `args`
text; `none` or `some ""` are both falsy for the `if not cmd.args` guard). -/
structure Command where
  command : String
  args : Option String
deriving Repr, DecidableEq

/-- The registry `bot_comments_db : Dict[int, int]` mapping an issue number to
the tracked bot comment id, as an association list with at most one entry per
key (dict semantics). -/
def dbGet (db : List (Nat × Nat)) (issue_number : Nat) : Option Nat :=
  (db.find? (fun p => decide (p.1 = issue_number))).map (fun p => p.2)

/-- `bot_comments_db.pop(issue_number, None)`: remove the entry for the key. -/
def dbPop (db : List (Nat × Nat)) (issue_number : Nat) : List (Nat × Nat) :=
  db.filter (fun p => decide (p.1 ≠ issue_number))

/-- `handle_approve` from `api/webhook.py`.  `formatApproved` models
`format_approved_comment` from `api/chatops.py` (a pure text transformation
stripping the draft markers).  Returns the new registry and the list of tracker
mutations attempted.  The registry entry is popped only when `update_comment`
reports success. -/
def handle_approve (formatApproved : String → String) (o : CommentOracles)
    (issue_number bot_comment_id : Nat) (db : List (Nat × Nat)) :
    List (Nat × Nat) × List TrackerMutation :=
  let comment_body := o.get_comment.getD ""
  if comment_body = "" then (db, [])
  else
    let approved_text := formatApproved comment_body ++ "\n\n✅ **Approved by maintainer**"
    if o.update_ok then
      (dbPop db issue_number, [TrackerMutation.update bot_comment_id approved_text])
    else (db, [TrackerMutation.update bot_comment_id approved_text])

/-- `handle_revise` from `api/webhook.py`: replace the tracked comment text;
pop the registry entry only when `update_comment` reports success. -/
def handle_revise (o : CommentOracles) (issue_number bot_comment_id : Nat)
    (new_text : String) (db : List (Nat × Nat)) :
    List (Nat × Nat) × List TrackerMutation :=
  let revised_text := new_text ++ "\n\n✅ **Revised and approved by maintainer**"
  if o.update_ok then
    (dbPop db issue_number, [TrackerMutation.update bot_comment_id revised_text])
  else (db, [TrackerMutation.update bot_comment_id revised_text])

/-- `handle_reject` from `api/webhook.py`: delete the tracked comment; pop the
registry entry only when `delete_comment` reports success. -/
def handle_reject (o : CommentOracles) (issue_number bot_comment_id : Nat)
    (db : List (Nat × Nat)) : List (Nat × Nat) × List TrackerMutation :=
  if o.delete_ok then
    (dbPop db issue_number, [TrackerMutation.delete bot_comment_id])
  else (db, [TrackerMutation.delete bot_comment_id])

/-- `process_comment_webhook` from `api/webhook.py`.  `cmd` is the result of
`parse_command` (`none` when no recognized command is found).  The handler
returns early, touching nothing, when there is no command or no tracked bot
comment for the issue, and rejects `revise` with a falsy argument before any
mutation. -/
def process_comment_webhook (formatApproved : String → String) (o : CommentOracles)
    (cmd : Option Command) (issue_number : Nat) (db : List (Nat × Nat)) :
    List (Nat × Nat) × List TrackerMutation :=
  match cmd with
  | none => (db, [])
  | some c =>
    match dbGet db issue_number with
    | none => (db, [])
    | some bot_comment_id =>
      if c.command = "approve" then handle_approve formatApproved o issue_number bot_comment_id db
      else if c.command = "revise" then
        if c.args.getD "" = "" then (db, [])
        else handle_revise o issue_number bot_comment_id (c.args.getD "") db
      else if c.command = "reject" then handle_reject o issue_number bot_comment_id db
      else (db, [])

/-- `ConnectionManager` from `api/websocket.py`; connection handles are opaque
and modelled as naturals. -/
structure ConnectionManager where
  active_connections : List Nat
deriving Repr, DecidableEq

/-- `ConnectionManager.disconnect`: remove the websocket from the list when
present (Python `list.remove` deletes the first occurrence). -/
def ConnectionManager.disconnect (m : ConnectionManager) (websocket : Nat) :
    ConnectionManager :=
  if websocket ∈ m.active_connections then
    { m with active_connections := m.active_connections.erase websocket }
  else m

/-- The fan-out loop inside `ConnectionManager.broadcast`: iterate over the
connection list in order, delivering to each (`sendOk` models whether
`send_json` succeeds for a given connection); return the connections that
received the message and the `disconnected` list collected by the `except`
branch, in iteration order. -/
def broadcast_pass (sendOk : Nat → Bool) : List Nat → List Nat × List Nat
  | [] => ([], [])
  | connection :: rest =>
    let p := broadcast_pass sendOk rest
    if sendOk connection then (connection :: p.1, p.2) else (p.1, connection :: p.2)

/-- `ConnectionManager.broadcast` from `api/websocket.py`: run the fan-out pass
over the whole current connection list, then (only after the pass) disconnect
each connection collected as dead.  Returns the new manager and the list of
connections that received the event. -/
def ConnectionManager.broadcast (m : ConnectionManager) (sendOk : Nat → Bool) :
    ConnectionManager × List Nat :=
  let p := broadcast_pass sendOk m.active_connections
  (p.2.foldl ConnectionManager.disconnect m, p.1)

/-- JSON body of an inbound webhook as far as `github_webhook` inspects it. -/
structure WebhookPayload where
  action : Option String
deriving Repr, DecidableEq

/-- `github_webhook` from `main.py`.  Inputs: the configured secret (`none` or
`some ""` both falsy for `if not secret`), the raw body bytes, the two headers,
the JSON parse outcome (`none` models a `json.JSONDecodeError`), and the drafts
registry (returned unchanged by the endpoint itself — mutation happens only
inside the queued background task).  Output: (HTTP status, whether a pipeline
background task was queued, registry).

Control-flow note, faithful to the source: the `raise HTTPException(...)`
statements for the missing-secret (500) and invalid-signature (401) checks sit
inside the same `try` block whose final `except Exception` clause catches any
`Exception` — and `HTTPException` is an `Exception` — re-raising it as
`HTTPException(status_code=500, detail=str(e))`.  The caller therefore observes
status 500, not 401, on an invalid signature. -/
def github_webhook {α : Type} (mac : String → List Nat → String)
    (secret : Option String) (body : List Nat) (signature : Option String)
    (event_type : Option String) (parsed : Option WebhookPayload)
    (drafts_db : α) : Nat × Bool × α :=
  if secret.getD "" = "" then (500, false, drafts_db)
  else if verify_github_signature mac body (signature.getD "") (secret.getD "") = false then
    (500, false, drafts_db)
  else
    match parsed with
    | none => (400, false, drafts_db)
    | some payload =>
      if event_type = some "issues" ∧ payload.action = some "opened" then
        (200, true, drafts_db)
      else (200, false, drafts_db)

/-! Helper lemmas and theorems about the embedded program. -/

lemma sha256_append_ne_empty (x : String) : "sha256=" ++ x ≠ "" := by
  intro h
  have h2 : ("sha256=" ++ x).length = ("" : String).length := congrArg String.length h
  rw [String.length_append] at h2
  have h3 : ("sha256=" : String).length = 7 := by decide
  have h4 : ("" : String).length = 0 := by decide
  omega

/-- C1: every pipeline run returns a terminal configuration: when `app.ainvoke`
completes (its successful semantics being one `run_graph` pass, ending in
`generate_node`), the returned state has `processing_stage = "awaiting_approval"`,
`approval_status = "pending"` and the refreshed timestamp; when `app.ainvoke`
raises with message `e`, the returned state has `processing_stage = "error"`,
`approval_status = "rejected"` and a diagnostic `draft_response`.  No other
return path exists, so the run is never left in a non-terminal stage. -/
theorem c1_pipeline_reaches_terminal_state (hasManager hasOpenai : Bool)
    (classifyLlm generateLlm : Except String String)
    (searchOutcome : Except String (List String)) (now : String)
    (init : AgentState) (e : String) :
    ((process_issue_with_agent
        (fun s => Except.ok (run_graph hasManager hasOpenai classifyLlm generateLlm
          searchOutcome now s)) init).processing_stage = "awaiting_approval"
      ∧ (process_issue_with_agent
          (fun s => Except.ok (run_graph hasManager hasOpenai classifyLlm generateLlm
            searchOutcome now s)) init).approval_status = "pending"
      ∧ (process_issue_with_agent
          (fun s => Except.ok (run_graph hasManager hasOpenai classifyLlm generateLlm
            searchOutcome now s)) init).timestamp = now)
    ∧ ((process_issue_with_agent (fun _ => Except.error e) init).processing_stage = "error"
      ∧ (process_issue_with_agent (fun _ => Except.error e) init).approval_status = "rejected"
      ∧ (process_issue_with_agent (fun _ => Except.error e) init).draft_response
          = "Error processing issue: " ++ e) := by
  refine ⟨⟨?_, ?_, ?_⟩, ⟨rfl, rfl, rfl⟩⟩ <;>
    simp [process_issue_with_agent, run_graph, generate_node]

/-- C2: `verify_github_signature` accepts exactly the string
`"sha256=" ++ hexdigest(hmac_sha256(secret, payload))`; consequently the
round-trip verifies, a missing (empty) signature is rejected, any other
signature string is rejected, and a payload whose MAC differs from the original
payload's MAC fails verification against the original signature. -/
theorem c2_signature_verification_iff (mac : String → List Nat → String)
    (payload : List Nat) (secret : String) :
    (∀ signature, verify_github_signature mac payload signature secret = true ↔
        signature = "sha256=" ++ mac secret payload)
    ∧ verify_github_signature mac payload ("sha256=" ++ mac secret payload) secret = true
    ∧ verify_github_signature mac payload "" secret = false
    ∧ (∀ signature, signature ≠ "sha256=" ++ mac secret payload →
        verify_github_signature mac payload signature secret = false)
    ∧ (∀ payload2, mac secret payload2 ≠ mac secret payload →
        verify_github_signature mac payload2 ("sha256=" ++ mac secret payload) secret
          = false) := by
  have key : ∀ signature, verify_github_signature mac payload signature secret = true ↔
      signature = "sha256=" ++ mac secret payload := by
    intro signature
    unfold verify_github_signature
    by_cases hs : signature = ""
    · simp [hs]
      exact fun h => sha256_append_ne_empty (mac secret payload) h.symm
    · simp [hs, eq_comm]
  refine ⟨key, (key _).mpr rfl, ?_, ?_, ?_⟩
  · simp [verify_github_signature]
  · intro signature hne
    by_contra h
    rw [Bool.not_eq_false] at h
    exact hne ((key signature).mp h)
  · intro payload2 hne
    unfold verify_github_signature
    have hne2 : ¬ ("sha256=" ++ mac secret payload = "") :=
      sha256_append_ne_empty (mac secret payload)
    simp [hne2]
    intro h
    exact hne (String.ext (by simpa [String.data_append] using congrArg String.data h))

/-- C5: routing after classification takes the retrieval stage exactly for BUG
and QUESTION classifications and otherwise goes directly to generation; the
router returns nothing but those two node names, and `should_retrieve_context`
agrees with it. -/
theorem c5_route_after_classification_iff (state : AgentState) :
    (route_after_classification state = "retrieve_context" ↔
      (state.classification = some "BUG" ∨ state.classification = some "QUESTION"))
    ∧ (route_after_classification state = "retrieve_context"
        ∨ route_after_classification state = "generate_solution")
    ∧ (should_retrieve_context state = true ↔
      (state.classification = some "BUG" ∨ state.classification = some "QUESTION")) := by
  by_cases h : state.classification = some "BUG" ∨ state.classification = some "QUESTION"
  · refine ⟨⟨fun _ => h, fun _ => ?_⟩, Or.inl ?_, ?_⟩ <;>
      simp [route_after_classification, should_retrieve_context, h]
  · refine ⟨⟨fun hr => absurd hr ?_, fun hc => absurd hc h⟩, Or.inr ?_, ?_⟩ <;>
      simp [route_after_classification, should_retrieve_context, h]

/-- Concrete stand-in for the keyed-hash hexdigest, used only to instantiate
hypothesis-carrying theorems at concrete inputs. -/
def macLen (secret : String) (payload : List Nat) : String :=
  toString (secret.length + payload.length)

/-- Concrete agent state used to instantiate theorems at concrete inputs. -/
def sampleState : AgentState where
  issue_id := "1"
  issue_number := 1
  issue_title := "Bug: crash on startup"
  issue_body := ""
  repository_full_name := "octo/repo"
  classification := none
  retrieved_context := []
  draft_response := ""
  approval_status := "pending"
  processing_stage := "received"
  timestamp := "t0"

/-- Witness for C2 at a concrete MAC, payload and secret: the correct signature
verifies and the same signature over a payload with a different MAC fails. -/
theorem c2_witness :
    verify_github_signature macLen [0] "sha256=2" "a" = true
    ∧ verify_github_signature macLen [0, 0] "sha256=2" "a" = false := by
  have h := c2_signature_verification_iff macLen [0] "a"
  exact ⟨h.2.1, h.2.2.2.2 [0, 0] (by decide)⟩

/-- C6: `classify_issue` is total (never propagates) and always yields one of
BUG, FEATURE, QUESTION; when the external classifier raises, or returns a label
outside the three allowed values, the classification falls back to QUESTION. -/
theorem c6_classify_total_and_safe_default (hasOpenai : Bool)
    (llm : Except String String) (state : AgentState) :
    ((classify_issue hasOpenai llm state).classification = some "BUG"
      ∨ (classify_issue hasOpenai llm state).classification = some "FEATURE"
      ∨ (classify_issue hasOpenai llm state).classification = some "QUESTION")
    ∧ (∀ e, (classify_issue true (Except.error e) state).classification = some "QUESTION")
    ∧ (∀ content,
        ¬ (pyUpper (pyStrip content) = "BUG" ∨ pyUpper (pyStrip content) = "FEATURE"
            ∨ pyUpper (pyStrip content) = "QUESTION") →
        (classify_issue true (Except.ok content) state).classification = some "QUESTION") := by
  refine ⟨?_, fun e => by simp [classify_issue], fun content hc => by simp [classify_issue, hc]⟩
  cases hasOpenai with
  | false => simp only [classify_issue]; split_ifs <;> simp
  | true =>
    cases llm with
    | error e => simp [classify_issue]
    | ok content =>
      by_cases hv : pyUpper (pyStrip content) = "BUG" ∨ pyUpper (pyStrip content) = "FEATURE"
          ∨ pyUpper (pyStrip content) = "QUESTION"
      · rcases hv with h | h | h <;> simp [classify_issue, h]
      · simp [classify_issue, hv]

/-- Witness for C6: an out-of-vocabulary classifier label falls back to
QUESTION. -/
theorem c6_witness :
    (classify_issue true (Except.ok "maybe") sampleState).classification = some "QUESTION" :=
  (c6_classify_total_and_safe_default true (Except.ok "maybe") sampleState).2.2 "maybe"
    (by decide)

/-- C9: the retrieve stage never raises and on any failure of the external
retriever leaves `retrieved_context` as the empty list (on success it is the
retrieved chunk list, so the field is always set, never absent); and
`search_relevant_context` itself returns the empty list when the vector
database is missing or the search raises internally. -/
theorem c9_retrieve_failure_yields_empty_context :
    (∀ e state, (retrieve_context (Except.error e) state).retrieved_context = [])
    ∧ (∀ chunks state, (retrieve_context (Except.ok chunks) state).retrieved_context = chunks)
    ∧ (∀ search, search_relevant_context true true false search = [])
    ∧ (∀ e, search_relevant_context true true true (Except.error e) = []) :=
  ⟨fun _ _ => rfl, fun _ _ => rfl, fun _ => rfl, fun _ => rfl⟩

/-- C3: on an invalid (or missing, modelled by the empty header) signature with
a configured secret, `github_webhook` performs no registry mutation and queues
no pipeline run — but the response status is 500, not the claimed 401: the
`HTTPException(401)` is caught by the endpoint's own blanket `except Exception`
clause and re-raised as a 500. -/
theorem c3_invalid_signature_rejected_without_mutation {α : Type}
    (mac : String → List Nat → String) (secret : String) (body : List Nat)
    (signature event_type : Option String) (parsed : Option WebhookPayload)
    (drafts_db : α)
    (hsecret : secret ≠ "")
    (hbad : verify_github_signature mac body (signature.getD "") secret = false) :
    github_webhook mac (some secret) body signature event_type parsed drafts_db
      = (500, false, drafts_db) := by
  simp [github_webhook, hsecret, hbad]

/-- Witness for C3 at concrete inputs: a wrong signature yields status 500 with
the registry untouched and no background pipeline task queued. -/
theorem c3_witness :
    github_webhook macLen (some "topsecret") [1, 2] (some "sha256=bogus") (some "issues")
      (some ⟨some "opened"⟩) ([] : List (Nat × Nat))
    = (500, false, ([] : List (Nat × Nat))) :=
  c3_invalid_signature_rejected_without_mutation macLen "topsecret" [1, 2]
    (some "sha256=bogus") (some "issues") (some ⟨some "opened"⟩) [] (by decide) (by decide)

lemma dbGet_dbPop (db : List (Nat × Nat)) (issue_number : Nat) :
    dbGet (dbPop db issue_number) issue_number = none := by
  induction db with
  | nil => rfl
  | cons p rest ih =>
    by_cases hp : p.1 = issue_number
    · simp only [dbPop, List.filter_cons, hp, decide_not, decide_eq_true_eq] at ih ⊢
      simp [ih]
    · simp [dbGet, dbPop, List.filter_cons, List.find?_cons, hp]

lemma process_comment_webhook_untracked (formatApproved : String → String)
    (o : CommentOracles) (c : Command) (issue_number : Nat) (db : List (Nat × Nat))
    (h : dbGet db issue_number = none) :
    process_comment_webhook formatApproved o (some c) issue_number db = (db, []) := by
  simp [process_comment_webhook, h]

/-- The success condition of a ChatOps command, read off the handler code: the
tracked comment body is fetched and non-empty and the tracker update succeeds
(approve), the argument is non-empty and the update succeeds (revise), or the
tracker delete succeeds (reject). -/
def command_succeeds (o : CommentOracles) (c : Command) : Prop :=
  (c.command = "approve" ∧ o.get_comment.getD "" ≠ "" ∧ o.update_ok = true)
  ∨ (c.command = "revise" ∧ c.args.getD "" ≠ "" ∧ o.update_ok = true)
  ∨ (c.command = "reject" ∧ o.delete_ok = true)

/-- C4: a successful approve, revise, or reject removes the registry entry for
the issue, and replaying the identical command a second time is a no-op: the
registry is returned untouched and no tracker mutation is attempted. -/
theorem c4_successful_command_removes_entry_and_replay_is_noop
    (formatApproved : String → String) (o : CommentOracles) (c : Command)
    (issue_number bot_comment_id : Nat) (db : List (Nat × Nat))
    (htrack : dbGet db issue_number = some bot_comment_id)
    (hs : command_succeeds o c) :
    dbGet (process_comment_webhook formatApproved o (some c) issue_number db).1
        issue_number = none
    ∧ process_comment_webhook formatApproved o (some c) issue_number
        (process_comment_webhook formatApproved o (some c) issue_number db).1
      = ((process_comment_webhook formatApproved o (some c) issue_number db).1, []) := by
  have hrun : (process_comment_webhook formatApproved o (some c) issue_number db).1
      = dbPop db issue_number := by
    rcases hs with ⟨hc, hbody, hup⟩ | ⟨hc, hargs, hup⟩ | ⟨hc, hdel⟩
    · simp [process_comment_webhook, htrack, hc, handle_approve, hbody, hup]
    · simp [process_comment_webhook, htrack, hc, handle_revise, hargs, hup]
    · simp [process_comment_webhook, htrack, hc, handle_reject, hdel]
  have hgone : dbGet (process_comment_webhook formatApproved o (some c) issue_number db).1
      issue_number = none := by
    rw [hrun]; exact dbGet_dbPop db issue_number
  exact ⟨hgone, process_comment_webhook_untracked formatApproved o c issue_number _ hgone⟩

/-- Witness for C4: approving a tracked issue removes its registry entry. -/
theorem c4_witness :
    dbGet (process_comment_webhook id ⟨some "draft body", true, true⟩
      (some ⟨"approve", none⟩) 5 [(5, 77)]).1 5 = none :=
  (c4_successful_command_removes_entry_and_replay_is_noop id ⟨some "draft body", true, true⟩
    ⟨"approve", none⟩ 5 77 [(5, 77)] (by decide) (Or.inl ⟨rfl, by decide, rfl⟩)).1

/-- C7: a revise command with an empty or missing argument performs no
mutation at all: no tracker call is attempted and the registry (hence the entry
for the issue, when tracked) is returned unchanged. -/
theorem c7_empty_revise_is_noop (formatApproved : String → String) (o : CommentOracles)
    (args : Option String) (issue_number : Nat) (db : List (Nat × Nat))
    (hargs : args.getD "" = "") :
    process_comment_webhook formatApproved o (some ⟨"revise", args⟩) issue_number db
      = (db, []) := by
  cases h : dbGet db issue_number with
  | none => simp [process_comment_webhook, h]
  | some cid => simp [process_comment_webhook, h, hargs]

/-- Witness for C7: a missing-argument revise on a tracked issue leaves the
registry unchanged and attempts no tracker mutation. -/
theorem c7_witness :
    process_comment_webhook id ⟨some "body", true, true⟩ (some ⟨"revise", none⟩) 5 [(5, 77)]
      = ([(5, 77)], []) :=
  c7_empty_revise_is_noop id ⟨some "body", true, true⟩ none 5 [(5, 77)] rfl

/-- Failure condition of the tracker mutation of a command, read off the
handler code (the handler was reached, attempted its mutation, and the
update/delete reported failure). -/
def command_mutation_fails (o : CommentOracles) (c : Command) : Prop :=
  (c.command = "approve" ∧ o.get_comment.getD "" ≠ "" ∧ o.update_ok = false)
  ∨ (c.command = "revise" ∧ c.args.getD "" ≠ "" ∧ o.update_ok = false)
  ∨ (c.command = "reject" ∧ o.delete_ok = false)

/-- C10: when the tracker mutation of an approve, revise or reject fails, the
registry entry is not removed (the registry is unchanged), a mutation was
attempted, and replaying the identical command re-attempts the tracker
mutation rather than being a no-op. -/
theorem c10_failed_tracker_mutation_keeps_entry
    (formatApproved : String → String) (o : CommentOracles) (c : Command)
    (issue_number bot_comment_id : Nat) (db : List (Nat × Nat))
    (htrack : dbGet db issue_number = some bot_comment_id)
    (hf : command_mutation_fails o c) :
    (process_comment_webhook formatApproved o (some c) issue_number db).1 = db
    ∧ (process_comment_webhook formatApproved o (some c) issue_number db).2 ≠ []
    ∧ (process_comment_webhook formatApproved o (some c) issue_number
        (process_comment_webhook formatApproved o (some c) issue_number db).1).2 ≠ [] := by
  have key : (process_comment_webhook formatApproved o (some c) issue_number db).1 = db
      ∧ (process_comment_webhook formatApproved o (some c) issue_number db).2 ≠ [] := by
    rcases hf with ⟨hc, hbody, hup⟩ | ⟨hc, hargs, hup⟩ | ⟨hc, hdel⟩
    · constructor <;> simp [process_comment_webhook, htrack, hc, handle_approve, hbody, hup]
    · constructor <;> simp [process_comment_webhook, htrack, hc, handle_revise, hargs, hup]
    · constructor <;> simp [process_comment_webhook, htrack, hc, handle_reject, hdel]
  refine ⟨key.1, key.2, ?_⟩
  rw [key.1]
  exact key.2

/-- Witness for C10: a reject whose tracker delete fails leaves the registry
entry in place. -/
theorem c10_witness :
    (process_comment_webhook id ⟨some "body", false, false⟩ (some ⟨"reject", none⟩) 5
      [(5, 77)]).1 = [(5, 77)] :=
  (c10_failed_tracker_mutation_keeps_entry id ⟨some "body", false, false⟩ ⟨"reject", none⟩
    5 77 [(5, 77)] (by decide) (Or.inr (Or.inr ⟨rfl, rfl⟩))).1

lemma broadcast_pass_fst (sendOk : Nat → Bool) (l : List Nat) :
    (broadcast_pass sendOk l).1 = l.filter sendOk := by
  induction l with
  | nil => rfl
  | cons c rest ih => cases h : sendOk c <;> simp [broadcast_pass, List.filter_cons, h, ih]

lemma broadcast_pass_snd (sendOk : Nat → Bool) (l : List Nat) :
    (broadcast_pass sendOk l).2 = l.filter (fun c => !sendOk c) := by
  induction l with
  | nil => rfl
  | cons c rest ih => cases h : sendOk c <;> simp [broadcast_pass, List.filter_cons, h, ih]

lemma filter_eq_single_of_unique (l : List Nat) (p : Nat → Bool) (bad : Nat)
    (hnd : l.Nodup) (hmem : bad ∈ l) (hbad : p bad = true)
    (hother : ∀ c ∈ l, c ≠ bad → p c = false) :
    l.filter p = [bad] := by
  induction l with
  | nil => cases hmem
  | cons x rest ih =>
    rcases List.mem_cons.mp hmem with hx | hx
    · subst hx
      have hnone : rest.filter p = [] := List.filter_eq_nil_iff.mpr (fun c hc => by
        have hcx : c ≠ bad := fun he => (List.nodup_cons.mp hnd).1 (he ▸ hc)
        simp [hother c (List.mem_cons_of_mem _ hc) hcx])
      simp [List.filter_cons, hbad, hnone]
    · have hx_ne : x ≠ bad := fun he => (List.nodup_cons.mp hnd).1 (he ▸ hx)
      have hpx : p x = false := hother x (List.mem_cons_self x rest) hx_ne
      rw [List.filter_cons]
      simp only [hpx, Bool.false_eq_true, if_false, cond_false]
      exact ih (List.nodup_cons.mp hnd).2 hx
        (fun c hc hc2 => hother c (List.mem_cons_of_mem _ hc) hc2)

/-- C8: in a broadcast over distinct subscribers where delivery to exactly one
subscriber `bad` fails, every other subscriber receives the event, the failed
one does not, the failed one is removed only after the fan-out pass (which
iterates the full original list, so subscribers after it still receive), so it
is absent from the subscriber set at the next broadcast while all others
remain; no error is raised to the caller (broadcast is a total function). -/
theorem c8_broadcast_isolation (m : ConnectionManager) (sendOk : Nat → Bool) (bad : Nat)
    (hnd : m.active_connections.Nodup) (hmem : bad ∈ m.active_connections)
    (hbad : sendOk bad = false)
    (hok : ∀ c ∈ m.active_connections, c ≠ bad → sendOk c = true) :
    (∀ c ∈ m.active_connections, c ≠ bad → c ∈ (m.broadcast sendOk).2)
    ∧ bad ∉ (m.broadcast sendOk).2
    ∧ (m.broadcast sendOk).1.active_connections = m.active_connections.erase bad
    ∧ bad ∉ (m.broadcast sendOk).1.active_connections
    ∧ (∀ c ∈ m.active_connections, c ≠ bad →
        c ∈ (m.broadcast sendOk).1.active_connections) := by
  have hsnd := broadcast_pass_snd sendOk m.active_connections
  have hfst := broadcast_pass_fst sendOk m.active_connections
  have hone : m.active_connections.filter (fun c => !sendOk c) = [bad] :=
    filter_eq_single_of_unique _ _ _ hnd hmem (by simp [hbad])
      (fun c hc hcne => by simp [hok c hc hcne])
  have hdeliv : (m.broadcast sendOk).2 = m.active_connections.filter sendOk := by
    simp [ConnectionManager.broadcast, hfst]
  have hmgr : (m.broadcast sendOk).1 = ConnectionManager.disconnect m bad := by
    simp [ConnectionManager.broadcast, hsnd, hone]
  have hactive : (m.broadcast sendOk).1.active_connections
      = m.active_connections.erase bad := by
    rw [hmgr]; simp [ConnectionManager.disconnect, hmem]
  refine ⟨?_, ?_, hactive, ?_, ?_⟩
  · intro c hc hcne
    rw [hdeliv]
    exact List.mem_filter.mpr ⟨hc, hok c hc hcne⟩
  · rw [hdeliv]
    intro hmem2
    have hb := (List.mem_filter.mp hmem2).2
    rw [hbad] at hb
    cases hb
  · rw [hactive]
    exact fun h => ((List.Nodup.mem_erase_iff hnd).mp h).1 rfl
  · intro c hc hcne
    rw [hactive]
    exact (List.Nodup.mem_erase_iff hnd).mpr ⟨hcne, hc⟩

/-- Witness for C8 with three subscribers of which the middle one fails: the
failed subscriber is pruned from the set and an earlier subscriber still
received the event. -/
theorem c8_witness :
    2 ∉ ((ConnectionManager.mk [1, 2, 3]).broadcast
        (fun c => decide (c ≠ 2))).1.active_connections
    ∧ 1 ∈ ((ConnectionManager.mk [1, 2, 3]).broadcast (fun c => decide (c ≠ 2))).2 := by
  have h := c8_broadcast_isolation ⟨[1, 2, 3]⟩ (fun c => decide (c ≠ 2)) 2
    (by decide) (by decide) (by decide) (by decide)
  exact ⟨h.2.2.2.1, h.1 1 (by decide) (by decide)⟩

end Spec2Proof
